import Mathlib

/-!
Verification of the Notion report generator's block-tree rendering and
report-assembly pipeline.

The definitions below are a shallow embedding of the Python source:

* `app/blocks_to_text.py` — rich-text formatting, the per-block renderer and
  the recursive children expansion (`extract_rich_text_content`,
  `extract_text_content`, `block_to_text_with_children`,
  `blocks_to_text_with_children`, `get_page_title`);
* `app/main.py` — property extraction (`extract_task_properties`), the
  table-of-contents generator (`generate_table_of_contents`) and the report
  assembler (`generate_report`);
* `app/notion.py` — `extract_relation_ids`; the remote fetch calls are
  modelled as an explicit environment of collaborator functions returning
  `Except`, mirroring Python exceptions.

JSON dictionaries are modelled by structures holding exactly the fields the
code reads, with Python `dict.get` defaulting collapsed into the field types
(`Option` for values whose absence the code tests, plain values where the
code only ever uses the `.get` default).  Python string/dict/list truthiness
is translated explicitly at each use site.  The unbounded recursive children
walk is given a `fuel` parameter; the Python code terminates exactly when the
remote tree is finite and acyclic, in which case a large enough fuel yields
the same result (fuel 0 renders with empty children text).
-/

/-! ## Rich text spans (`extract_rich_text_content`) -/

/-- One element of a Notion `rich_text` array.  `ty` is the `"type"` tag;
`content` is `text.content` (the code's `.get("text", {}).get("content", "")`
defaulting collapsed); the four flags are the `annotations` booleans
(`annotations.get(...)` truthiness); `href` is the optional hyperlink, `none`
standing for an absent/null `href`. -/
structure TextObj where
  ty : String
  content : String
  bold : Bool
  italic : Bool
  strikethrough : Bool
  code : Bool
  href : Option String
deriving DecidableEq, Repr

/-- The four annotation wrappers applied in the source's fixed order:
bold, italic, strikethrough, inline code (lines 18–25 of
`blocks_to_text.py`, successive reassignments of `text_content`). -/
def applyAnnotations (t : TextObj) : String :=
  let c0 := t.content
  let c1 := if t.bold then "**" ++ c0 ++ "**" else c0
  let c2 := if t.italic then "*" ++ c1 ++ "*" else c1
  let c3 := if t.strikethrough then "~~" ++ c2 ++ "~~" else c2
  if t.code then "`" ++ c3 ++ "`" else c3

/-- Formatting of one span: only spans whose type tag is `"text"` contribute;
a truthy `href` (present and non-empty, Python `if href:`) wraps the
annotated text as a link. -/
def formatTextObj (t : TextObj) : String :=
  if t.ty = "text" then
    match t.href with
    | some h => if h ≠ "" then "[" ++ applyAnnotations t ++ "](" ++ h ++ ")" else applyAnnotations t
    | none => applyAnnotations t
  else ""

/-- `extract_rich_text_content`: left-to-right accumulation
`result += text_content` over the span list. -/
def extract_rich_text_content (rich_text : List TextObj) : String :=
  rich_text.foldl (fun acc t => acc ++ formatTextObj t) ""

/-! ## Blocks and the per-block renderer -/

/-- A Notion block, holding exactly the fields `blocks_to_text.py` reads.
`rich_text` is `block[block_type]["rich_text"]` (the payload is keyed by the
type tag in the JSON; since the code only ever reads the payload under the
block's own type, the indirection is collapsed).  `checked` is
`to_do.checked` (default false), `language` is `code.language` (default ""),
`emoji` is `callout.icon.emoji` (default ""), `caption` is `image.caption`
(default []). -/
structure Block where
  ty : String
  id : String
  rich_text : List TextObj
  checked : Bool
  language : String
  emoji : String
  caption : List TextObj
deriving DecidableEq, Repr

/-- `extract_text_content`: the block's own rich text, formatted. -/
def extract_text_content (block : Block) : String :=
  extract_rich_text_content block.rich_text

/-- The dispatch chain of `block_to_text_with_children` (lines 60–133 of
`blocks_to_text.py`), as a function of the block and the already-computed
`children_content`. -/
def renderBlock (flatten_headings : Bool) (block : Block) (children_content : String) : String :=
  let text_content := extract_text_content block
  if block.ty = "heading_1" then
    if flatten_headings then "**" ++ text_content ++ "**\n\n" ++ children_content
    else "# " ++ text_content ++ "\n" ++ children_content
  else if block.ty = "heading_2" then
    if flatten_headings then "**" ++ text_content ++ "**\n\n" ++ children_content
    else "## " ++ text_content ++ "\n" ++ children_content
  else if block.ty = "heading_3" then
    if flatten_headings then "**" ++ text_content ++ "**\n\n" ++ children_content
    else "### " ++ text_content ++ "\n" ++ children_content
  else if block.ty = "paragraph" then
    if text_content ≠ "" ∨ children_content ≠ "" then text_content ++ "\n" ++ children_content
    else "\n"
  else if block.ty = "to_do" then
    (if block.checked then "- [x]" else "- [ ]") ++ " " ++ text_content ++ "\n" ++ children_content
  else if block.ty = "bulleted_list_item" then
    "- " ++ text_content ++ "\n" ++ children_content
  else if block.ty = "numbered_list_item" then
    "1. " ++ text_content ++ "\n" ++ children_content
  else if block.ty = "quote" then
    "> " ++ text_content ++ "\n" ++ children_content
  else if block.ty = "code" then
    "```" ++ block.language ++ "\n" ++ text_content ++ "\n```\n"
  else if block.ty = "divider" then
    "---\n"
  else if block.ty = "callout" then
    block.emoji ++ " **" ++ text_content ++ "**\n" ++ children_content ++ "\n"
  else if block.ty = "toggle" then
    "<details>\n<summary>" ++ text_content ++ "</summary>\n\n" ++ children_content ++ "\n</details>\n"
  else if block.ty = "table" then
    "[Table: " ++ text_content ++ "]\n"
  else if block.ty = "image" then
    "![" ++ extract_rich_text_content block.caption ++ "](" ++ text_content ++ ")\n"
  else if block.ty = "file" then
    "[File: " ++ text_content ++ "]\n"
  else if block.ty = "video" then
    "[Video: " ++ text_content ++ "]\n"
  else if block.ty = "audio" then
    "[Audio: " ++ text_content ++ "]\n"
  else if block.ty = "embed" then
    "[Embed: " ++ text_content ++ "]\n"
  else if block.ty = "bookmark" then
    "[Bookmark: " ++ text_content ++ "]\n"
  else if block.ty = "link_preview" then
    "[Link: " ++ text_content ++ "]\n"
  else if block.ty = "equation" then
    "$$" ++ text_content ++ "$$\n"
  else if block.ty = "table_of_contents" then
    "[Table of Contents]\n"
  else if block.ty = "breadcrumb" then
    "[Breadcrumb]\n"
  else if block.ty = "column_list" then
    "[Column List]\n"
  else if block.ty = "column" then
    "[Column]\n"
  else if block.ty = "link_to_page" then
    "[Link to Page: " ++ text_content ++ "]\n"
  else if block.ty = "synced_block" then
    "[Synced Block]\n"
  else if block.ty = "template" then
    "[Template: " ++ text_content ++ "]\n"
  else if block.ty = "child_page" then
    "[Child Page: " ++ text_content ++ "]\n"
  else if block.ty = "child_database" then
    "[Child Database: " ++ text_content ++ "]\n"
  else
    "[Unsupported block: " ++ block.ty ++ "]\n"

/-- The block kinds for which `block_to_text_with_children` fetches and
recursively renders children (line 52 of `blocks_to_text.py`). -/
def childrenEligible : List String :=
  ["toggle", "callout", "quote", "bulleted_list_item", "numbered_list_item", "to_do"]

/-! ## Pages, properties and metadata extraction (`main.py`, `notion.py`) -/

/-- One item of a title rich-text array; `content` is
`item.get("text", {}).get("content", "")` with the defaulting collapsed. -/
structure TitleItem where
  content : String
deriving DecidableEq, Repr

/-- Payload of a status-typed property: `status.name`, `none` for a
missing/null name. -/
structure StatusValue where
  name : Option String
deriving DecidableEq, Repr

/-- Payload of a select-typed property. -/
structure SelectValue where
  name : Option String
deriving DecidableEq, Repr

/-- Payload of a date-typed property: `date.start`. -/
structure DateValue where
  start : Option String
deriving DecidableEq, Repr

/-- Payload of a formula-typed property: `formula.string`. -/
structure FormulaValue where
  str : Option String
deriving DecidableEq, Repr

/-- One multi-select tag. -/
structure TagValue where
  name : Option String
deriving DecidableEq, Repr

/-- One person of a people-typed property. -/
structure PersonValue where
  name : Option String
deriving DecidableEq, Repr

/-- One item of a relation-typed property. -/
structure RelationItem where
  id : String
deriving DecidableEq, Repr

/-- A Notion page property: the `"type"` tag plus the typed payloads the
code reads (each `.get(<payload>, {})`-style access is an `Option`/list
field here; a property dict carries only its own payload, the others
default). -/
structure NotionProp where
  ty : String
  status : Option StatusValue
  select : Option SelectValue
  date : Option DateValue
  formula : Option FormulaValue
  multi_select : List TagValue
  people : List PersonValue
  title : List TitleItem
  relation : List RelationItem
deriving DecidableEq, Repr

/-- A property with no payload at all (models the `{}` default of
`properties.get(name, {})`). -/
def emptyProp : NotionProp := ⟨"", none, none, none, none, [], [], [], []⟩

/-- A Notion page: its id and its ordered `properties` mapping (Python
dicts preserve insertion order, so the mapping is an association list). -/
structure Page where
  id : String
  properties : List (String × NotionProp)
deriving DecidableEq, Repr

/-- `properties.get(name)`: first binding of the name, if any. -/
def lookupProp (props : List (String × NotionProp)) (name : String) : Option NotionProp :=
  (props.find? (fun p => p.1 = name)).map (fun p => p.2)

/-- `"".join(item.get("text", {}).get("content", "") for item in rich)`. -/
def titleFromRich (rich : List TitleItem) : String :=
  String.join (rich.map (fun it => it.content))

/-- `get_page_title` (`blocks_to_text.py` lines 239–259): try the canonical
names "Name", "Title", "Page" in order (title-typed with non-empty rich
text), then fall back to the first title-typed property with non-empty rich
text in mapping order, else "Untitled". -/
def get_page_title (page : Page) : String :=
  match ["Name", "Title", "Page"].findSome? (fun n =>
      match lookupProp page.properties n with
      | some p => if p.ty = "title" ∧ p.title ≠ [] then some (titleFromRich p.title) else none
      | none => none) with
  | some t => t
  | none =>
    match page.properties.findSome? (fun pr =>
        if pr.2.ty = "title" ∧ pr.2.title ≠ [] then some (titleFromRich pr.2.title) else none) with
    | some t => t
    | none => "Untitled"

/-- `NotionAPI.extract_relation_ids` (`notion.py` lines 52–58): the ids of a
relation-typed property, `[]` if the property is absent or not
relation-typed. -/
def extract_relation_ids (page : Page) (relation_name : String) : List String :=
  match lookupProp page.properties relation_name with
  | some p => if p.ty = "relation" then p.relation.map (fun it => it.id) else []
  | none => []

/-- The flat mapping produced by `extract_task_properties`; a `none` field
is an absent key. -/
structure TaskProps where
  status : Option String
  priority : Option String
  due_date : Option String
  date_done : Option String
  info : Option String
  tags : Option String
  assignee : Option String
deriving DecidableEq, Repr

/-- The status-loop body of `extract_task_properties` (lines 26–32 of
`main.py`) for one candidate property name: succeeds when the property is
status-typed with a truthy `status` payload and a truthy name. -/
def resolveStatus (props : List (String × NotionProp)) (name : String) : Option String :=
  match lookupProp props name with
  | some p =>
    if p.ty = "status" then
      match p.status with
      | some sv =>
        match sv.name with
        | some n => if n ≠ "" then some n else none
        | none => none
      | none => none
    else none
  | none => none

/-- `extract_task_properties` (`main.py` lines 20–76).  Status tries the
names "Status" then "Kanban", first success wins; the other extractors
mirror the source's type checks and truthiness guards (`.get("name", "")`
style defaults collapse a null name to `""`). -/
def extract_task_properties (task_page : Page) : TaskProps :=
  let props := task_page.properties
  let status := (resolveStatus props "Status").orElse (fun _ => resolveStatus props "Kanban")
  let priority :=
    match lookupProp props "Priority" with
    | some p =>
      if p.ty = "select" then
        match p.select with
        | some sv => some (sv.name.getD "")
        | none => none
      else none
    | none => none
  let due_date :=
    match lookupProp props "Do date" with
    | some p =>
      if p.ty = "date" then
        match p.date with
        | some dv =>
          match dv.start with
          | some s => if s ≠ "" then some s else none
          | none => none
        | none => none
      else none
    | none => none
  let date_done :=
    match lookupProp props "Date done" with
    | some p =>
      if p.ty = "date" then
        match p.date with
        | some dv =>
          match dv.start with
          | some s => if s ≠ "" then some s else none
          | none => none
        | none => none
      else none
    | none => none
  let info :=
    match lookupProp props "Info" with
    | some p =>
      if p.ty = "formula" then
        match p.formula with
        | some fv =>
          match fv.str with
          | some s => if s ≠ "" then some s else none
          | none => none
        | none => none
      else none
    | none => none
  let tags :=
    match lookupProp props "Tags" with
    | some p =>
      if p.ty = "multi_select" then
        if p.multi_select ≠ [] then
          some (String.intercalate ", " (p.multi_select.map (fun t => t.name.getD "")))
        else none
      else none
    | none => none
  let assignee :=
    match lookupProp props "Assignee" with
    | some p =>
      if p.ty = "people" then
        if p.people ≠ [] then
          some (String.intercalate ", " (p.people.map (fun t => t.name.getD "")))
        else none
      else none
    | none => none
  ⟨status, priority, due_date, date_done, info, tags, assignee⟩

/-! ## The collaborator environment and the recursive tree walk -/

/-- The external collaborators of the pipeline, with `Except.error`
modelling a raised exception: `getPage` and `getBlockChildren` are the
Notion fetches, `upload` is `upload_text_public_flexible` (path, content →
public URL), `updatePageUrl` is `update_page_url_property`, `slugify` is
the slug library used for the blob path only, and `nowStr`/`nowStamp` are
the two `datetime.now()` formats (modelled constant within one request). -/
structure Env where
  getPage : String → Except String Page
  getBlockChildren : String → Except String (List Block)
  upload : String → String → Except String String
  updatePageUrl : String → String → String → Except String Unit
  slugify : String → String
  nowStr : String
  nowStamp : String

/-- `block_to_text_with_children` (`blocks_to_text.py` lines 44–133): render
one block, fetching and recursively rendering its children when the block
has a truthy id and a children-eligible kind; a fetch error leaves the
children text empty.  `fuel` bounds the recursion depth (the Python source
recurses unboundedly; on a finite acyclic store a large enough fuel agrees
with it, and fuel 0 renders with empty children text). -/
def block_to_text_with_children : Nat → Env → Block → Bool → String
  | 0, _, block, flatten_headings => renderBlock flatten_headings block ""
  | fuel + 1, env, block, flatten_headings =>
    let children_content :=
      if block.id ≠ "" ∧ block.ty ∈ childrenEligible then
        match env.getBlockChildren block.id with
        | .ok children =>
          if children ≠ [] then
            String.join (children.map (fun c => block_to_text_with_children fuel env c flatten_headings))
          else ""
        | .error _ => ""
      else ""
    renderBlock flatten_headings block children_content

/-- The children text computed inside `block_to_text_with_children`,
exposed as its own function. -/
def childrenContent : Nat → Env → Block → Bool → String
  | 0, _, _, _ => ""
  | fuel + 1, env, block, flatten_headings =>
    if block.id ≠ "" ∧ block.ty ∈ childrenEligible then
      match env.getBlockChildren block.id with
      | .ok children =>
        if children ≠ [] then
          String.join (children.map (fun c => block_to_text_with_children fuel env c flatten_headings))
        else ""
      | .error _ => ""
    else ""

/-- `blocks_to_text_with_children` (`blocks_to_text.py` lines 136–144):
concatenate the per-block fragments in document order. -/
def blocks_to_text_with_children (fuel : Nat) (env : Env) (blocks : List Block)
    (flatten_headings : Bool) : String :=
  String.join (blocks.map (fun b => block_to_text_with_children fuel env b flatten_headings))

/-! ## Table of contents generation (`generate_table_of_contents`) -/

/-- Python `\s` for ASCII text: space, tab, newline, carriage return, form
feed, vertical tab. -/
def pyIsSpace (c : Char) : Bool :=
  c == ' ' || c == '\t' || c == '\n' || c == '\r' || c == '\x0c' || c == '\x0b'

/-- Python `\w` for ASCII text: letters, digits and underscore. -/
def pyIsWordChar (c : Char) : Bool :=
  c.isAlphanum || c == '_'

/-- Largest index `j ≥ 1` into the whitespace run whose character is not a
newline — the backtracking position of `\s+` when `.+` has no characters
left after the run (regex backtracking shrinks the greedy `\s+` from the
right). -/
def lastNonNewlineIdx (ws : List Char) : Option Nat :=
  (List.range ws.length).reverse.find? (fun j => decide (1 ≤ j) && (ws.getD j '\n' != '\n'))

/-- Matching of the pattern `^(#{1,6})\s+(.+)$` (with MULTILINE `$`) at a
line-start position: returns the heading level, the title characters and
the remaining input after the match.  A run of more than six `#` can never
match (every 1–6-hash split leaves a `#` where `\s+` must start); otherwise
the greedy `\s+` takes the whole whitespace run and `.+` the rest of that
line, backtracking into the run only when the input ends inside it. -/
def matchHeadingAt (cs : List Char) : Option (Nat × List Char × List Char) :=
  let r := (cs.takeWhile (fun c => c == '#')).length
  if 1 ≤ r ∧ r ≤ 6 then
    let cs' := cs.drop r
    let ws := cs'.takeWhile pyIsSpace
    if ws.length = 0 then none
    else
      let rest0 := cs'.drop ws.length
      if rest0.isEmpty then
        match lastNonNewlineIdx ws with
        | some j =>
          let tail := cs'.drop j
          let title := tail.takeWhile (fun c => c != '\n')
          some (r, title, tail.drop title.length)
        | none => none
      else
        let title := rest0.takeWhile (fun c => c != '\n')
        some (r, title, rest0.drop title.length)
  else none

/-- `re.findall` scan for the heading pattern: attempt a match at every
line-start position, continuing after the end of each match.  `fuel` is at
least the number of remaining characters plus one (each step consumes at
least one character). -/
def findHeadingsAux : Nat → List Char → Bool → List (Nat × String)
  | 0, _, _ => []
  | _ + 1, [], _ => []
  | fuel + 1, c :: cs, atLineStart =>
    if atLineStart then
      match matchHeadingAt (c :: cs) with
      | some (lvl, title, rest) => (lvl, String.mk title) :: findHeadingsAux fuel rest false
      | none => findHeadingsAux fuel cs (c == '\n')
    else
      findHeadingsAux fuel cs (c == '\n')

/-- All `(level, title)` heading matches of the content, in order. -/
def findHeadings (content : String) : List (Nat × String) :=
  findHeadingsAux (content.data.length + 1) content.data true

/-- One pass of `re.sub(r'[-\s]+', '-', ...)`: collapse every maximal run
of hyphens/whitespace into a single hyphen.  `inRun` records whether the
previous character belonged to such a run. -/
def collapseRunsAux : List Char → Bool → List Char
  | [], _ => []
  | c :: cs, inRun =>
    if c == '-' || pyIsSpace c then
      if inRun then collapseRunsAux cs true
      else '-' :: collapseRunsAux cs true
    else c :: collapseRunsAux cs false

/-- Python `str.strip('-')`: drop leading and trailing hyphens. -/
def stripHyphens (l : List Char) : List Char :=
  ((l.dropWhile (fun c => c == '-')).reverse.dropWhile (fun c => c == '-')).reverse

/-- The anchor slug of a heading title (`main.py` lines 90–91): lower-case
(per-character, modelling `str.lower` on ASCII text), delete every
character that is not a word character, whitespace or hyphen
(`re.sub(r'[^\w\s-]', '', ...)`), collapse hyphen/whitespace runs to single
hyphens and strip outer hyphens. -/
def slugAnchor (title : String) : String :=
  let lowered := title.data.map Char.toLower
  let stripped := lowered.filter (fun c => pyIsWordChar c || pyIsSpace c || c == '-')
  String.mk (stripHyphens (collapseRunsAux stripped false))

/-- One TOC entry (`main.py` lines 93–97): two spaces of indentation per
level above one, then `- [title](#anchor)`. -/
def tocEntry (level : Nat) (title : String) : String :=
  String.mk (List.replicate (2 * (level - 1)) ' ') ++ "- [" ++ title ++ "](#" ++ slugAnchor title ++ ")"

/-- `generate_table_of_contents` (`main.py` lines 79–99). -/
def generate_table_of_contents (content : String) : String :=
  let toc_lines :=
    "## Table of Contents\n" :: (findHeadings content).map (fun p => tocEntry p.1 p.2)
  String.intercalate "\n" toc_lines ++ "\n\n---\n\n"

/-! ## Report assembly (`generate_report`, `main.py` lines 163–298) -/

/-- `settings.notion_rel_project_to_notes` (default configuration). -/
def notion_rel_project_to_notes : String := "Notes"

/-- `settings.notion_rel_project_to_tasks` (default configuration). -/
def notion_rel_project_to_tasks : String := "Tasks"

/-- `settings.notion_project_pdf_url_prop` (default configuration). -/
def notion_project_pdf_url_prop : String := "Latest PDF URL"

/-- The note-loop body (`main.py` lines 186–194): fetch the note page and
its blocks, render with flattened headings; any fetch failure yields the
one-line error placeholder instead. -/
def processNote (env : Env) (fuel : Nat) (note_id : String) : String :=
  match env.getPage note_id with
  | .error e => "### [Error loading note: " ++ e ++ "]\n\n"
  | .ok note_page =>
    let note_title := get_page_title note_page
    match env.getBlockChildren note_id with
    | .error e => "### [Error loading note: " ++ e ++ "]\n\n"
    | .ok note_blocks =>
      let note_content := blocks_to_text_with_children fuel env note_blocks true
      "### " ++ note_title ++ "\n\n" ++ note_content ++ "\n"

/-- The property summary parts (`main.py` lines 207–221): status first and
bold, then the present-and-truthy fields in fixed order. -/
def taskPropParts (tp : TaskProps) : List String :=
  (match tp.status with
   | some s => if s ≠ "" then ["**Status: " ++ s ++ "**"] else []
   | none => []) ++
  (match tp.priority with
   | some s => if s ≠ "" then ["Priority: " ++ s] else []
   | none => []) ++
  (match tp.due_date with
   | some s => if s ≠ "" then ["Due: " ++ s] else []
   | none => []) ++
  (match tp.date_done with
   | some s => if s ≠ "" then ["Done: " ++ s] else []
   | none => []) ++
  (match tp.assignee with
   | some s => if s ≠ "" then ["Assignee: " ++ s] else []
   | none => []) ++
  (match tp.tags with
   | some s => if s ≠ "" then ["Tags: " ++ s] else []
   | none => []) ++
  (match tp.info with
   | some s => if s ≠ "" then ["Info: " ++ s] else []
   | none => [])

/-- The task-loop body (`main.py` lines 198–231): fetch the task page,
extract its properties into the summary suffix, fetch and render its
blocks with flattened headings; any fetch failure yields the one-line
error placeholder instead. -/
def processTask (env : Env) (fuel : Nat) (task_id : String) : String :=
  match env.getPage task_id with
  | .error e => "### [Error loading task: " ++ e ++ "]\n\n"
  | .ok task_page =>
    let task_title := get_page_title task_page
    let task_props := extract_task_properties task_page
    let prop_parts := taskPropParts task_props
    let properties_str :=
      if prop_parts ≠ [] then " - " ++ String.intercalate ", " prop_parts else ""
    match env.getBlockChildren task_id with
    | .error e => "### [Error loading task: " ++ e ++ "]\n\n"
    | .ok task_blocks =>
      let task_content := blocks_to_text_with_children fuel env task_blocks true
      "### " ++ task_title ++ properties_str ++ "\n\n" ++ task_content ++ "\n"

/-- The `main_content` f-string of `generate_report` (lines 237–262). -/
def buildMainContent (project_title nowStr project_content : String)
    (notes_content tasks_content : List String) : String :=
  "# " ++ project_title ++ "\n\n**Generated:** " ++ nowStr ++
  "\n\n---\n\n## Project Overview\n\n" ++ project_content ++
  "\n\n---\n\n## Notes\n\n" ++
  (if notes_content ≠ [] then String.intercalate "\n" notes_content else "*No notes found.*") ++
  "\n\n---\n\n## Tasks\n\n" ++
  (if tasks_content ≠ [] then String.intercalate "\n" tasks_content else "*No tasks found.*") ++
  "\n\n---\n\n*Report generated by Notion Report Generator*\n"

/-- The value returned by a successful `generate_report`, together with the
report text it uploaded (the source returns the counts and URL and passes
the text to storage; keeping the text here makes it observable). -/
structure ReportOutcome where
  status : String
  url : String
  project_title : String
  notes_count : Nat
  tasks_count : Nat
  report_content : String
deriving Repr

/-- `generate_report` (`main.py` lines 163–298): fetch the primary page and
its blocks, render every linked note and task (failures degrade to
placeholders inside `processNote`/`processTask`), assemble the report,
splice the table of contents after the title header, upload, update the
URL property and return the counts.  Any exception escaping the body —
primary fetches, upload, URL update — surfaces as the aggregate error. -/
def generate_report (env : Env) (fuel : Nat) (page_id : String) : Except String ReportOutcome :=
  match env.getPage page_id with
  | .error e => .error ("Failed to generate report: " ++ e)
  | .ok project_page =>
    let project_title := get_page_title project_page
    let notes_ids := extract_relation_ids project_page notion_rel_project_to_notes
    let tasks_ids := extract_relation_ids project_page notion_rel_project_to_tasks
    match env.getBlockChildren page_id with
    | .error e => .error ("Failed to generate report: " ++ e)
    | .ok project_blocks =>
      let project_content := blocks_to_text_with_children fuel env project_blocks false
      let notes_content := notes_ids.map (processNote env fuel)
      let tasks_content := tasks_ids.map (processTask env fuel)
      let main_content :=
        buildMainContent project_title env.nowStr project_content notes_content tasks_content
      let toc := generate_table_of_contents main_content
      let title_section :=
        "# " ++ project_title ++ "\n\n**Generated:** " ++ env.nowStr ++ "\n\n"
      let rest_of_content := main_content.drop title_section.length
      let report_content := title_section ++ toc ++ rest_of_content
      let project_slug := env.slugify project_title
      let blob_path :=
        "reports/" ++ page_id.take 4 ++ "/project-" ++ project_slug ++ "-" ++ env.nowStamp ++ ".md"
      match env.upload blob_path report_content with
      | .error e => .error ("Failed to generate report: " ++ e)
      | .ok public_url =>
        match env.updatePageUrl page_id notion_project_pdf_url_prop public_url with
        | .error e => .error ("Failed to generate report: " ++ e)
        | .ok _ =>
          .ok ⟨"ok", public_url, project_title, notes_ids.length, tasks_ids.length, report_content⟩

/-! ## Helper lemmas -/

theorem str_ext {s t : String} (h : s.data = t.data) : s = t := by
  cases s; cases t; exact congrArg String.mk h

theorem join_cons (s : String) (l : List String) :
    String.join (s :: l) = s ++ String.join l := by
  apply str_ext
  simp [String.data_join, String.data_append]

theorem join_append (a b : List String) :
    String.join (a ++ b) = String.join a ++ String.join b := by
  apply str_ext
  simp [String.data_join, String.data_append]

theorem foldl_append_join {α : Type} (f : α → String) :
    ∀ (l : List α) (acc : String),
      l.foldl (fun a x => a ++ f x) acc = acc ++ String.join (l.map f)
  | [], acc => by
    rw [List.foldl_nil, List.map_nil, show String.join [] = "" from rfl, String.append_empty]
  | x :: xs, acc => by
    rw [List.foldl_cons, List.map_cons, join_cons, foldl_append_join f xs (acc ++ f x),
      String.append_assoc]

theorem extract_eq_join (l : List TextObj) :
    extract_rich_text_content l = String.join (l.map formatTextObj) := by
  unfold extract_rich_text_content
  rw [foldl_append_join, String.empty_append]

theorem formatTextObj_of_not_text {t : TextObj} (h : t.ty ≠ "text") :
    formatTextObj t = "" := by
  unfold formatTextObj
  rw [if_neg h]

theorem btwc_eq_render (fuel : Nat) (env : Env) (b : Block) (fl : Bool) :
    block_to_text_with_children fuel env b fl = renderBlock fl b (childrenContent fuel env b fl) := by
  cases fuel <;> rfl

theorem childrenContent_of_not_eligible (fuel : Nat) (env : Env) (b : Block) (fl : Bool)
    (h : b.ty ∉ childrenEligible) : childrenContent fuel env b fl = "" := by
  cases fuel with
  | zero => rfl
  | succ n =>
    simp only [childrenContent]
    rw [if_neg]
    intro hc
    exact h hc.2

theorem childrenContent_of_error (fuel : Nat) (env : Env) (b : Block) (fl : Bool) (e : String)
    (h : env.getBlockChildren b.id = .error e) : childrenContent fuel env b fl = "" := by
  cases fuel with
  | zero => rfl
  | succ n =>
    simp only [childrenContent]
    split
    · rw [h]
    · rfl

/-- The number of heading-marker characters in a string. -/
def countHash (s : String) : Nat := s.data.count '#'

theorem countHash_append (a b : String) :
    countHash (a ++ b) = countHash a + countHash b := by
  simp [countHash, String.data_append, List.count_append]

/-! ## Claims -/

/-- Claim C4: the TOC generator derives anchors by lower-casing, stripping
non word/space/hyphen characters, collapsing hyphen/whitespace runs and
trimming outer hyphens (the composition `slugAnchor`); on a text containing
the heading lines `# A`, `## B b` and `### C-c!` it finds the three
headings in order, derives anchors `a`, `b-b`, `c-c`, and indents each
entry by two spaces per (level − 1). -/
theorem claim_C4 :
    findHeadings "Intro\n# A\nmid\n## B b\n### C-c!\nend" = [(1, "A"), (2, "B b"), (3, "C-c!")] ∧
    slugAnchor "A" = "a" ∧ slugAnchor "B b" = "b-b" ∧ slugAnchor "C-c!" = "c-c" ∧
    tocEntry 1 "A" = "- [A](#a)" ∧
    tocEntry 2 "B b" = "  - [B b](#b-b)" ∧
    tocEntry 3 "C-c!" = "    - [C-c!](#c-c)" ∧
    generate_table_of_contents "Intro\n# A\nmid\n## B b\n### C-c!\nend" =
      "## Table of Contents\n\n- [A](#a)\n  - [B b](#b-b)\n    - [C-c!](#c-c)\n\n---\n\n" := by
  decide

/-- Claim C5 (counterexample): a span whose hyperlink is present but equal
to the empty string is not wrapped as a link — the code tests Python
truthiness (`if href:`), not presence, so the claim's "a present hyperlink
then wraps the already-annotated text" fails at `href = some ""`. -/
theorem claim_C5_counterexample :
    extract_rich_text_content [⟨"text", "x", false, false, false, false, some ""⟩] = "x" ∧
    extract_rich_text_content [⟨"text", "x", false, false, false, false, some ""⟩] ≠
      "[" ++ "x" ++ "](" ++ "" ++ ")" := by
  decide

/-- Claim C5 (amended): spans are concatenated in input order; the empty
sequence yields the empty string; each text span is wrapped by its
applicable annotation markers in the fixed order bold, italic,
strikethrough, inline-code; a present *non-empty* hyperlink then wraps the
annotated text as a link using the target verbatim, while a present
empty-string hyperlink (falsy in the source's `if href:`) and an absent
hyperlink leave it unwrapped. -/
theorem claim_C5 :
    extract_rich_text_content [] = "" ∧
    (∀ l : List TextObj, extract_rich_text_content l = String.join (l.map formatTextObj)) ∧
    (∀ (t : TextObj) (u : String), t.ty = "text" → t.href = some u → u ≠ "" →
      formatTextObj t = "[" ++ applyAnnotations t ++ "](" ++ u ++ ")") ∧
    (∀ t : TextObj, t.ty = "text" → t.href = some "" → formatTextObj t = applyAnnotations t) ∧
    (∀ t : TextObj, t.ty = "text" → t.href = none → formatTextObj t = applyAnnotations t) ∧
    (∀ (ty c : String) (href : Option String),
      applyAnnotations ⟨ty, c, true, true, true, true, href⟩ = "`~~***" ++ c ++ "***~~`") ∧
    (∀ (ty c : String) (href : Option String),
      applyAnnotations ⟨ty, c, true, false, false, false, href⟩ = "**" ++ c ++ "**") ∧
    (∀ (ty c : String) (href : Option String),
      applyAnnotations ⟨ty, c, false, true, false, false, href⟩ = "*" ++ c ++ "*") ∧
    (∀ (ty c : String) (href : Option String),
      applyAnnotations ⟨ty, c, false, false, true, false, href⟩ = "~~" ++ c ++ "~~") ∧
    (∀ (ty c : String) (href : Option String),
      applyAnnotations ⟨ty, c, false, false, false, true, href⟩ = "`" ++ c ++ "`") := by
  refine ⟨rfl, extract_eq_join, ?_, ?_, ?_, ?_, ?_, ?_, ?_, ?_⟩
  · intro t u h1 h2 h3
    simp [formatTextObj, h1, h2, h3]
  · intro t h1 h2
    simp [formatTextObj, h1, h2]
  · intro t h1 h2
    simp [formatTextObj, h1, h2]
  · intro ty c href
    apply str_ext
    simp [applyAnnotations, String.data_append]
  · intro ty c href
    simp [applyAnnotations]
  · intro ty c href
    simp [applyAnnotations]
  · intro ty c href
    simp [applyAnnotations]
  · intro ty c href
    simp [applyAnnotations]

/-- Claim C5 witness: a concrete fully-annotated linked span. -/
theorem claim_C5_witness :
    formatTextObj ⟨"text", "x", true, true, true, true, some "u"⟩ =
      "[" ++ applyAnnotations ⟨"text", "x", true, true, true, true, some "u"⟩ ++ "](" ++ "u" ++ ")" :=
  claim_C5.2.2.1 ⟨"text", "x", true, true, true, true, some "u"⟩ "u" rfl rfl (by decide)

/-- Claim C10: spans whose type tag is not `"text"` contribute nothing:
removing such a span leaves the formatted output unchanged, and a sequence
of only non-text spans formats to the empty string. -/
theorem claim_C10 :
    (∀ (l₁ l₂ : List TextObj) (t : TextObj), t.ty ≠ "text" →
      extract_rich_text_content (l₁ ++ t :: l₂) = extract_rich_text_content (l₁ ++ l₂)) ∧
    (∀ l : List TextObj, (∀ t ∈ l, t.ty ≠ "text") → extract_rich_text_content l = "") := by
  constructor
  · intro l₁ l₂ t h
    rw [extract_eq_join, extract_eq_join, List.map_append, List.map_append, List.map_cons,
      join_append, join_append, join_cons, formatTextObj_of_not_text h, String.empty_append]
  · intro l h
    induction l with
    | nil => rfl
    | cons x xs ih =>
      rw [extract_eq_join, List.map_cons, join_cons,
        formatTextObj_of_not_text (h x (by simp)), String.empty_append, ← extract_eq_join]
      exact ih (fun t ht => h t (by simp [ht]))

/-- Claim C10 witness: a sequence holding only mention and equation spans. -/
theorem claim_C10_witness :
    extract_rich_text_content [⟨"mention", "m", false, false, false, false, none⟩,
      ⟨"equation", "e", true, false, false, false, some "u"⟩] = "" :=
  claim_C10.2 _ (by decide)

/-- Claim C2: heading blocks of levels 1–3 render, under flattened
headings, as the bold-wrapped span text, a blank line, then the children
text (which the walker always leaves empty for headings, since heading
kinds are not children-eligible), and the fragment contains exactly the
heading-marker characters already present in the span text (the renderer
emits none); without flattening they render as a `#`-run of the heading's
level, a space, the span text, a line break, then the children text. -/
theorem claim_C2 (fuel : Nat) (env : Env) (b : Block) :
    (b.ty = "heading_1" →
      (∀ fl, childrenContent fuel env b fl = "") ∧
      block_to_text_with_children fuel env b true =
        "**" ++ extract_text_content b ++ "**\n\n" ++ childrenContent fuel env b true ∧
      countHash (block_to_text_with_children fuel env b true) =
        countHash (extract_text_content b) ∧
      block_to_text_with_children fuel env b false =
        "# " ++ extract_text_content b ++ "\n" ++ childrenContent fuel env b false) ∧
    (b.ty = "heading_2" →
      (∀ fl, childrenContent fuel env b fl = "") ∧
      block_to_text_with_children fuel env b true =
        "**" ++ extract_text_content b ++ "**\n\n" ++ childrenContent fuel env b true ∧
      countHash (block_to_text_with_children fuel env b true) =
        countHash (extract_text_content b) ∧
      block_to_text_with_children fuel env b false =
        "## " ++ extract_text_content b ++ "\n" ++ childrenContent fuel env b false) ∧
    (b.ty = "heading_3" →
      (∀ fl, childrenContent fuel env b fl = "") ∧
      block_to_text_with_children fuel env b true =
        "**" ++ extract_text_content b ++ "**\n\n" ++ childrenContent fuel env b true ∧
      countHash (block_to_text_with_children fuel env b true) =
        countHash (extract_text_content b) ∧
      block_to_text_with_children fuel env b false =
        "### " ++ extract_text_content b ++ "\n" ++ childrenContent fuel env b false) := by
  have hhash : ∀ t : String, countHash ("**" ++ t ++ "**\n\n" ++ "") = countHash t := by
    intro t
    rw [countHash_append, countHash_append, countHash_append]
    have h1 : countHash "**" = 0 := by decide
    have h2 : countHash "**\n\n" = 0 := by decide
    have h3 : countHash "" = 0 := rfl
    omega
  refine ⟨?_, ?_, ?_⟩ <;> intro h
  · have hne : b.ty ∉ childrenEligible := by rw [h]; decide
    have hcc : ∀ fl, childrenContent fuel env b fl = "" :=
      fun fl => childrenContent_of_not_eligible fuel env b fl hne
    have hrt : ∀ cc, renderBlock true b cc = "**" ++ extract_text_content b ++ "**\n\n" ++ cc := by
      intro cc; simp [renderBlock, h]
    have hrf : ∀ cc, renderBlock false b cc = "# " ++ extract_text_content b ++ "\n" ++ cc := by
      intro cc; simp [renderBlock, h]
    refine ⟨hcc, by rw [btwc_eq_render, hrt], ?_, by rw [btwc_eq_render, hrf]⟩
    rw [btwc_eq_render, hrt, hcc]
    exact hhash _
  · have hne : b.ty ∉ childrenEligible := by rw [h]; decide
    have hcc : ∀ fl, childrenContent fuel env b fl = "" :=
      fun fl => childrenContent_of_not_eligible fuel env b fl hne
    have hrt : ∀ cc, renderBlock true b cc = "**" ++ extract_text_content b ++ "**\n\n" ++ cc := by
      intro cc; simp [renderBlock, h]
    have hrf : ∀ cc, renderBlock false b cc = "## " ++ extract_text_content b ++ "\n" ++ cc := by
      intro cc; simp [renderBlock, h]
    refine ⟨hcc, by rw [btwc_eq_render, hrt], ?_, by rw [btwc_eq_render, hrf]⟩
    rw [btwc_eq_render, hrt, hcc]
    exact hhash _
  · have hne : b.ty ∉ childrenEligible := by rw [h]; decide
    have hcc : ∀ fl, childrenContent fuel env b fl = "" :=
      fun fl => childrenContent_of_not_eligible fuel env b fl hne
    have hrt : ∀ cc, renderBlock true b cc = "**" ++ extract_text_content b ++ "**\n\n" ++ cc := by
      intro cc; simp [renderBlock, h]
    have hrf : ∀ cc, renderBlock false b cc = "### " ++ extract_text_content b ++ "\n" ++ cc := by
      intro cc; simp [renderBlock, h]
    refine ⟨hcc, by rw [btwc_eq_render, hrt], ?_, by rw [btwc_eq_render, hrf]⟩
    rw [btwc_eq_render, hrt, hcc]
    exact hhash _

/-- An environment whose every fetch fails (used to exercise the
failure-isolation claims on concrete inputs). -/
def envFail : Env :=
  ⟨fun _ => .error "pageboom", fun _ => .error "boom", fun _ _ => .ok "url",
   fun _ _ _ => .ok (), fun s => s, "2024-01-01 00:00:00", "20240101_0000"⟩

/-- An environment whose block store reports a child for every block id. -/
def envKids : Env :=
  ⟨fun _ => .error "pageboom", fun _ => .ok [⟨"paragraph", "", [], false, "", "", []⟩],
   fun _ _ => .ok "url", fun _ _ _ => .ok (), fun s => s, "2024-01-01 00:00:00", "20240101_0000"⟩

/-- Claim C2 witness: a level-1 heading whose span text itself contains a
`#`. -/
theorem claim_C2_witness :
    (∀ fl, childrenContent 1 envFail ⟨"heading_1", "h", [⟨"text", "T#", false, false, false, false, none⟩], false, "", "", []⟩ fl = "") ∧
    block_to_text_with_children 1 envFail ⟨"heading_1", "h", [⟨"text", "T#", false, false, false, false, none⟩], false, "", "", []⟩ true =
      "**" ++ extract_text_content ⟨"heading_1", "h", [⟨"text", "T#", false, false, false, false, none⟩], false, "", "", []⟩ ++ "**\n\n" ++
        childrenContent 1 envFail ⟨"heading_1", "h", [⟨"text", "T#", false, false, false, false, none⟩], false, "", "", []⟩ true ∧
    countHash (block_to_text_with_children 1 envFail ⟨"heading_1", "h", [⟨"text", "T#", false, false, false, false, none⟩], false, "", "", []⟩ true) =
      countHash (extract_text_content ⟨"heading_1", "h", [⟨"text", "T#", false, false, false, false, none⟩], false, "", "", []⟩) ∧
    block_to_text_with_children 1 envFail ⟨"heading_1", "h", [⟨"text", "T#", false, false, false, false, none⟩], false, "", "", []⟩ false =
      "# " ++ extract_text_content ⟨"heading_1", "h", [⟨"text", "T#", false, false, false, false, none⟩], false, "", "", []⟩ ++ "\n" ++
        childrenContent 1 envFail ⟨"heading_1", "h", [⟨"text", "T#", false, false, false, false, none⟩], false, "", "", []⟩ false :=
  (claim_C2 1 envFail _).1 rfl

/-- Claim C3: when the children fetch of a children-eligible block raises,
the children text is empty and the block renders exactly as it would with
no children; the error never escapes (the rendering functions are total
and the failing fetch result is consumed by the `.error` branch). -/
theorem claim_C3 (fuel : Nat) (env : Env) (fl : Bool) (b : Block) (e : String)
    (helig : b.ty ∈ childrenEligible) (herr : env.getBlockChildren b.id = .error e) :
    childrenContent fuel env b fl = "" ∧
    block_to_text_with_children fuel env b fl = renderBlock fl b "" := by
  have hcc := childrenContent_of_error fuel env b fl e herr
  exact ⟨hcc, by rw [btwc_eq_render, hcc]⟩

/-- Claim C3 witness: a toggle block against the failing store. -/
theorem claim_C3_witness :
    childrenContent 2 envFail ⟨"toggle", "b1", [], false, "", "", []⟩ false = "" ∧
    block_to_text_with_children 2 envFail ⟨"toggle", "b1", [], false, "", "", []⟩ false =
      renderBlock false ⟨"toggle", "b1", [], false, "", "", []⟩ "" :=
  claim_C3 2 envFail false _ "boom" (by decide) rfl

/-- Claim C7: for a block of any kind outside the six children-eligible
kinds, the children text is empty, the block renders as with no children,
and the rendering is independent of the external block store — no fetched
content can appear even if the store reports children. -/
theorem claim_C7 (fuel : Nat) (env env' : Env) (fl : Bool) (b : Block)
    (h : b.ty ∉ ["toggle", "callout", "quote", "bulleted_list_item", "numbered_list_item", "to_do"]) :
    childrenContent fuel env b fl = "" ∧
    block_to_text_with_children fuel env b fl = renderBlock fl b "" ∧
    block_to_text_with_children fuel env b fl = block_to_text_with_children fuel env' b fl := by
  have h' : b.ty ∉ childrenEligible := h
  have hcc := childrenContent_of_not_eligible fuel env b fl h'
  have hcc' := childrenContent_of_not_eligible fuel env' b fl h'
  refine ⟨hcc, by rw [btwc_eq_render, hcc], ?_⟩
  rw [btwc_eq_render, btwc_eq_render, hcc, hcc']

/-- Claim C7 witness: a paragraph block with an id, rendered against the
failing store and against a store that reports a child for it. -/
theorem claim_C7_witness :
    childrenContent 2 envFail ⟨"paragraph", "p1", [], false, "", "", []⟩ false = "" ∧
    block_to_text_with_children 2 envFail ⟨"paragraph", "p1", [], false, "", "", []⟩ false =
      renderBlock false ⟨"paragraph", "p1", [], false, "", "", []⟩ "" ∧
    block_to_text_with_children 2 envFail ⟨"paragraph", "p1", [], false, "", "", []⟩ false =
      block_to_text_with_children 2 envKids ⟨"paragraph", "p1", [], false, "", "", []⟩ false :=
  claim_C7 2 envFail envKids false _ (by decide)

/-- Claim C8: a paragraph with empty span text and empty children text
renders to exactly one newline — never the empty string — and otherwise
renders its text, a newline, then its children text. -/
theorem claim_C8 (fuel : Nat) (env : Env) (fl : Bool) (b : Block) (h : b.ty = "paragraph") :
    (extract_text_content b = "" → childrenContent fuel env b fl = "" →
      block_to_text_with_children fuel env b fl = "\n") ∧
    block_to_text_with_children fuel env b fl ≠ "" ∧
    ((extract_text_content b ≠ "" ∨ childrenContent fuel env b fl ≠ "") →
      block_to_text_with_children fuel env b fl =
        extract_text_content b ++ "\n" ++ childrenContent fuel env b fl) := by
  have hr : ∀ cc, renderBlock fl b cc =
      if extract_text_content b ≠ "" ∨ cc ≠ "" then extract_text_content b ++ "\n" ++ cc
      else "\n" := by
    intro cc; simp [renderBlock, h]
  refine ⟨?_, ?_, ?_⟩
  · intro ht hcc
    rw [btwc_eq_render, hcc, hr, ht]
    simp
  · rw [btwc_eq_render, hr]
    split
    · intro hq
      have hd := congrArg String.data hq
      simp [String.data_append] at hd
    · decide
  · intro hor
    rw [btwc_eq_render, hr, if_pos hor]

/-- Claim C8 witness: the empty paragraph. -/
theorem claim_C8_witness :
    block_to_text_with_children 1 envFail ⟨"paragraph", "", [], false, "", "", []⟩ false = "\n" :=
  (claim_C8 1 envFail false _ rfl).1 rfl rfl

/-- Whether the named property exists and is status-typed. -/
def isStatusTyped (props : List (String × NotionProp)) (name : String) : Bool :=
  match lookupProp props name with
  | some p => p.ty = "status"
  | none => false

theorem extract_status_eq (page : Page) :
    (extract_task_properties page).status =
      (resolveStatus page.properties "Status").orElse
        (fun _ => resolveStatus page.properties "Kanban") := rfl

theorem resolveStatus_of_not_typed (props : List (String × NotionProp)) (name : String)
    (h : isStatusTyped props name = false) : resolveStatus props name = none := by
  unfold isStatusTyped at h
  unfold resolveStatus
  cases hl : lookupProp props name with
  | none => rfl
  | some p =>
    rw [hl] at h
    simp at h
    simp [h]

/-- Claim C6: status is resolved by trying the property names "Status"
then "Kanban" in that fixed order, taking the first that is status-typed
with a non-empty name; a record with no status-typed property under either
name gets no status entry at all. -/
theorem claim_C6 (page : Page) :
    (∀ n, resolveStatus page.properties "Status" = some n →
      (extract_task_properties page).status = some n) ∧
    (resolveStatus page.properties "Status" = none →
      (extract_task_properties page).status = resolveStatus page.properties "Kanban") ∧
    (isStatusTyped page.properties "Status" = false →
      isStatusTyped page.properties "Kanban" = false →
      (extract_task_properties page).status = none) := by
  refine ⟨?_, ?_, ?_⟩
  · intro n h
    rw [extract_status_eq, h]
    rfl
  · intro h
    rw [extract_status_eq, h]
    rfl
  · intro h1 h2
    rw [extract_status_eq, resolveStatus_of_not_typed _ _ h1, resolveStatus_of_not_typed _ _ h2]
    rfl

/-- Claim C6 witness: a record with no properties at all. -/
theorem claim_C6_witness :
    (extract_task_properties ⟨"id0", []⟩).status = none :=
  (claim_C6 ⟨"id0", []⟩).2.2 rfl rfl

/-! ## Report-assembly lemmas -/

theorem drop_append_left (s t : String) : (s ++ t).drop s.length = t := by
  apply str_ext
  rw [String.data_drop, String.data_append]
  exact List.drop_left s.data t.data

/-- Everything of `main_content` after the title-and-timestamp header. -/
def mainBody (project_content : String) (notes_content tasks_content : List String) : String :=
  "---\n\n## Project Overview\n\n" ++ project_content ++
  "\n\n---\n\n## Notes\n\n" ++
  (if notes_content ≠ [] then String.intercalate "\n" notes_content else "*No notes found.*") ++
  "\n\n---\n\n## Tasks\n\n" ++
  (if tasks_content ≠ [] then String.intercalate "\n" tasks_content else "*No tasks found.*") ++
  "\n\n---\n\n*Report generated by Notion Report Generator*\n"

theorem buildMainContent_split (t now P : String) (ns ts : List String) :
    buildMainContent t now P ns ts =
      ("# " ++ t ++ "\n\n**Generated:** " ++ now ++ "\n\n") ++ mainBody P ns ts := by
  unfold buildMainContent mainBody
  apply str_ext
  simp [String.data_append]

/-- The final report text assembled by a successful `generate_report`:
title header, spliced table of contents, then the body after the header. -/
def reportText (env : Env) (fuel : Nat) (project_page : Page) (project_blocks : List Block) : String :=
  let project_title := get_page_title project_page
  let project_content := blocks_to_text_with_children fuel env project_blocks false
  let notes_content :=
    (extract_relation_ids project_page notion_rel_project_to_notes).map (processNote env fuel)
  let tasks_content :=
    (extract_relation_ids project_page notion_rel_project_to_tasks).map (processTask env fuel)
  let main_content :=
    buildMainContent project_title env.nowStr project_content notes_content tasks_content
  let title_section := "# " ++ project_title ++ "\n\n**Generated:** " ++ env.nowStr ++ "\n\n"
  title_section ++ generate_table_of_contents main_content ++
    main_content.drop title_section.length

theorem reportText_eq (env : Env) (fuel : Nat) (pp : Page) (pb : List Block) :
    reportText env fuel pp pb =
      ("# " ++ get_page_title pp ++ "\n\n**Generated:** " ++ env.nowStr ++ "\n\n") ++
      generate_table_of_contents
        (("# " ++ get_page_title pp ++ "\n\n**Generated:** " ++ env.nowStr ++ "\n\n") ++
          mainBody (blocks_to_text_with_children fuel env pb false)
            ((extract_relation_ids pp notion_rel_project_to_notes).map (processNote env fuel))
            ((extract_relation_ids pp notion_rel_project_to_tasks).map (processTask env fuel))) ++
      mainBody (blocks_to_text_with_children fuel env pb false)
        ((extract_relation_ids pp notion_rel_project_to_notes).map (processNote env fuel))
        ((extract_relation_ids pp notion_rel_project_to_tasks).map (processTask env fuel)) := by
  simp only [reportText]
  rw [buildMainContent_split, drop_append_left]

theorem mainBody_notes_infix (ts toc P : String) (ns tsk : List String) (h : ns ≠ []) :
    ∃ pre post, ts ++ toc ++ mainBody P ns tsk =
      pre ++ String.intercalate "\n" ns ++ post := by
  unfold mainBody
  rw [if_pos h]
  refine ⟨ts ++ toc ++ ("---\n\n## Project Overview\n\n" ++ P ++ "\n\n---\n\n## Notes\n\n"),
    "\n\n---\n\n## Tasks\n\n" ++
      (if tsk ≠ [] then String.intercalate "\n" tsk else "*No tasks found.*") ++
      "\n\n---\n\n*Report generated by Notion Report Generator*\n", ?_⟩
  apply str_ext
  simp [String.data_append]

theorem mainBody_tasks_infix (ts toc P : String) (ns tsk : List String) (h : tsk ≠ []) :
    ∃ pre post, ts ++ toc ++ mainBody P ns tsk =
      pre ++ String.intercalate "\n" tsk ++ post := by
  unfold mainBody
  rw [if_pos h]
  refine ⟨ts ++ toc ++ ("---\n\n## Project Overview\n\n" ++ P ++ "\n\n---\n\n## Notes\n\n" ++
      (if ns ≠ [] then String.intercalate "\n" ns else "*No notes found.*") ++
      "\n\n---\n\n## Tasks\n\n"),
    "\n\n---\n\n*Report generated by Notion Report Generator*\n", ?_⟩
  apply str_ext
  simp [String.data_append]

theorem generate_report_ok (env : Env) (fuel : Nat) (page_id : String) (project_page : Page)
    (project_blocks : List Block) (uf : String → String → String)
    (hpage : env.getPage page_id = .ok project_page)
    (hblocks : env.getBlockChildren page_id = .ok project_blocks)
    (hupload : ∀ p c, env.upload p c = .ok (uf p c))
    (hupdate : ∀ a b c, env.updatePageUrl a b c = .ok ()) :
    ∃ u, generate_report env fuel page_id = .ok
      ⟨"ok", u, get_page_title project_page,
       (extract_relation_ids project_page notion_rel_project_to_notes).length,
       (extract_relation_ids project_page notion_rel_project_to_tasks).length,
       reportText env fuel project_page project_blocks⟩ := by
  refine ⟨uf ("reports/" ++ page_id.take 4 ++ "/project-" ++
      env.slugify (get_page_title project_page) ++ "-" ++ env.nowStamp ++ ".md")
      (reportText env fuel project_page project_blocks), ?_⟩
  simp only [generate_report, hpage, hblocks, hupload, hupdate]
  rfl

/-- Claim C1: with the primary fetches succeeding and the storage/update
collaborators honoring their contracts, the report is assembled from
exactly one section per linked note id and per linked task id (the section
lists are index-wise images of the id lists, so their lengths are the
counts of linked ids); a failing secondary fetch — of the record or of its
blocks — yields the one-line error placeholder for that item only, and the
reported counts equal the numbers of linked ids, never reduced by
failures; the joined note and task sections appear inside the returned
report text. -/
theorem claim_C1 (env : Env) (fuel : Nat) (page_id : String) (project_page : Page)
    (project_blocks : List Block) (uf : String → String → String)
    (hpage : env.getPage page_id = .ok project_page)
    (hblocks : env.getBlockChildren page_id = .ok project_blocks)
    (hupload : ∀ p c, env.upload p c = .ok (uf p c))
    (hupdate : ∀ a b c, env.updatePageUrl a b c = .ok ()) :
    ∃ out, generate_report env fuel page_id = .ok out ∧
      out.notes_count = (extract_relation_ids project_page notion_rel_project_to_notes).length ∧
      out.tasks_count = (extract_relation_ids project_page notion_rel_project_to_tasks).length ∧
      ((extract_relation_ids project_page notion_rel_project_to_notes).map
          (processNote env fuel)).length = out.notes_count ∧
      ((extract_relation_ids project_page notion_rel_project_to_tasks).map
          (processTask env fuel)).length = out.tasks_count ∧
      (∀ nid e, env.getPage nid = .error e →
        processNote env fuel nid = "### [Error loading note: " ++ e ++ "]\n\n") ∧
      (∀ nid p e, env.getPage nid = .ok p → env.getBlockChildren nid = .error e →
        processNote env fuel nid = "### [Error loading note: " ++ e ++ "]\n\n") ∧
      (∀ tid e, env.getPage tid = .error e →
        processTask env fuel tid = "### [Error loading task: " ++ e ++ "]\n\n") ∧
      (∀ tid p e, env.getPage tid = .ok p → env.getBlockChildren tid = .error e →
        processTask env fuel tid = "### [Error loading task: " ++ e ++ "]\n\n") ∧
      (extract_relation_ids project_page notion_rel_project_to_notes ≠ [] →
        ∃ pre post, out.report_content =
          pre ++ String.intercalate "\n"
            ((extract_relation_ids project_page notion_rel_project_to_notes).map
              (processNote env fuel)) ++ post) ∧
      (extract_relation_ids project_page notion_rel_project_to_tasks ≠ [] →
        ∃ pre post, out.report_content =
          pre ++ String.intercalate "\n"
            ((extract_relation_ids project_page notion_rel_project_to_tasks).map
              (processTask env fuel)) ++ post) := by
  obtain ⟨u, hgen⟩ :=
    generate_report_ok env fuel page_id project_page project_blocks uf hpage hblocks hupload hupdate
  refine ⟨_, hgen, rfl, rfl, List.length_map _ _, List.length_map _ _, ?_, ?_, ?_, ?_, ?_, ?_⟩
  · intro nid e h
    simp [processNote, h]
  · intro nid p e h1 h2
    simp [processNote, h1, h2]
  · intro tid e h
    simp [processTask, h]
  · intro tid p e h1 h2
    simp [processTask, h1, h2]
  · intro hne
    have hmap : (extract_relation_ids project_page notion_rel_project_to_notes).map
        (processNote env fuel) ≠ [] := by simpa using hne
    rw [show (⟨"ok", u, get_page_title project_page,
        (extract_relation_ids project_page notion_rel_project_to_notes).length,
        (extract_relation_ids project_page notion_rel_project_to_tasks).length,
        reportText env fuel project_page project_blocks⟩ : ReportOutcome).report_content =
        reportText env fuel project_page project_blocks from rfl, reportText_eq]
    exact mainBody_notes_infix _ _ _ _ _ hmap
  · intro hne
    have hmap : (extract_relation_ids project_page notion_rel_project_to_tasks).map
        (processTask env fuel) ≠ [] := by simpa using hne
    rw [show (⟨"ok", u, get_page_title project_page,
        (extract_relation_ids project_page notion_rel_project_to_notes).length,
        (extract_relation_ids project_page notion_rel_project_to_tasks).length,
        reportText env fuel project_page project_blocks⟩ : ReportOutcome).report_content =
        reportText env fuel project_page project_blocks from rfl, reportText_eq]
    exact mainBody_tasks_infix _ _ _ _ _ hmap

/-- A relation-typed property with the given target ids. -/
def relProp (ids : List String) : NotionProp :=
  ⟨"relation", none, none, none, none, [], [], [], ids.map (fun i => ⟨i⟩)⟩

/-- A title-typed property with the given text. -/
def titleProp (s : String) : NotionProp :=
  ⟨"title", none, none, none, none, [], [], [⟨s⟩], []⟩

/-- A project page linking two notes and one task. -/
def pageP : Page :=
  ⟨"p", [("Name", titleProp "Proj"), ("Notes", relProp ["n1", "n2"]), ("Tasks", relProp ["t1"])]⟩

/-- An environment where only the primary page "p" resolves; every
secondary fetch fails. -/
def envA : Env :=
  ⟨fun pid => if pid = "p" then .ok pageP else .error "boom",
   fun bid => if bid = "p" then .ok [] else .error "blockboom",
   fun _ _ => .ok "url", fun _ _ _ => .ok (), fun s => s,
   "2024-01-01 00:00:00", "20240101_0000"⟩

/-- Claim C1 witness: both linked notes and the linked task fail to fetch,
yet the report succeeds and reports two notes and one task. -/
theorem claim_C1_witness :
    ∃ out, generate_report envA 3 "p" = .ok out ∧
      out.notes_count = 2 ∧ out.tasks_count = 1 := by
  obtain ⟨out, h1, h2, h3, _⟩ :=
    claim_C1 envA 3 "p" pageP [] (fun _ _ => "url") rfl rfl (fun _ _ => rfl) (fun _ _ _ => rfl)
  exact ⟨out, h1, by rw [h2]; decide, by rw [h3]; decide⟩

/-- Claim C9: the pipeline surfaces an aggregate `Failed to generate
report` error exactly when the primary document cannot be fetched (its
page or its block list); when the primary fetches succeed and the
storage/update collaborators honor their contracts, the report returns
successfully no matter how the secondary fetches behave. -/
theorem claim_C9 (env : Env) (fuel : Nat) (page_id : String) :
    (∀ e, env.getPage page_id = .error e →
      generate_report env fuel page_id = .error ("Failed to generate report: " ++ e)) ∧
    (∀ page e, env.getPage page_id = .ok page → env.getBlockChildren page_id = .error e →
      generate_report env fuel page_id = .error ("Failed to generate report: " ++ e)) ∧
    (∀ (page : Page) (blocks : List Block) (uf : String → String → String),
      env.getPage page_id = .ok page →
      env.getBlockChildren page_id = .ok blocks →
      (∀ p c, env.upload p c = .ok (uf p c)) →
      (∀ a b c, env.updatePageUrl a b c = .ok ()) →
      ∃ out, generate_report env fuel page_id = .ok out) := by
  refine ⟨?_, ?_, ?_⟩
  · intro e h
    simp [generate_report, h]
  · intro page e h1 h2
    simp [generate_report, h1, h2]
  · intro page blocks uf h1 h2 h3 h4
    obtain ⟨u, hu⟩ := generate_report_ok env fuel page_id page blocks uf h1 h2 h3 h4
    exact ⟨_, hu⟩

/-- Claim C9 witness: a failing primary fetch surfaces the aggregate
error; a succeeding primary with failing secondaries returns a report. -/
theorem claim_C9_witness :
    generate_report envFail 2 "p" = .error ("Failed to generate report: " ++ "pageboom") ∧
    ∃ out, generate_report envA 2 "p" = .ok out :=
  ⟨(claim_C9 envFail 2 "p").1 "pageboom" rfl,
   (claim_C9 envA 2 "p").2.2 pageP [] (fun _ _ => "url") rfl rfl
     (fun _ _ => rfl) (fun _ _ _ => rfl)⟩
